import Mathlib

/-!
Verification of the command-line driver (main.py) of the computer-use-preview
repository: argument parsing, Computer construction, the scoped run of the
agent loop inside a with-block, and output-file writing.  The BrowserAgent
class and the two Computer classes are imported by main.py from modules that
are not part of the source tree; wherever their behaviour decides a property,
the corresponding definition is modelled from the specification and marked as
such in its doc comment.
-/

/-- Default value of the query flag, copied from the argparse declaration in main.py. -/
def DEFAULT_QUERY : String := String.intercalate "\n"
  [ "Subject: QA Test"
  , "Plan: Comprehensive validation of interactive webpage elements"
  , ""
  , "Objective: Verify that every interactive control renders correctly, responds to all supported input methods (mouse and touch emulation), and reflects the appropriate visual feedback across major browsers and responsive breakpoints."
  , ""
  , "Checklist:"
  , "\t1.\tCatalog all interactive elements (navigation menus, buttons, links, forms, inputs, sliders, toggles, accordions, carousels, media controls, dialogs/modals, tooltips, drag-and-drop regions, and custom widgets)."
  , "\t2.\tFor each element:"
  , "\t•\tConfirm default states, hover/focus/active/disabled styles, loading indicators, and error/success messaging."
  , "\t•\tValidate accessible name/role semantics (labels, ARIA where applicable) and that assistive cues are present where needed."
  , "\t•\tExercise edge cases: empty submissions, invalid inputs, repeated clicks, rapid interactions, and concurrent actions."
  , "\t•\tVerify state persistence, undo/cancel options, and interaction with dependent elements."
  , "\t3.\tAssess form behaviors: client/server validation, autofill, copy/paste, masking, character limits, file uploads, and multi-step flows."
  , "\t4.\tEvaluate dynamic content updates (live regions, auto-refresh, animations) for consistency and accessibility."
  , "\t5.\tTest responsiveness at key breakpoints (mobile, tablet, desktop) and ensure interactions remain usable without layout shifts or overlaps."
  , "\t6.\tCapture cross-browser parity notes for Chrome, Firefox, Safari, and Edge; flag vendor-specific quirks."
  , "\t7.\tDocument screenshots or recordings of failures, console/network errors, and reproduction steps for any defects."
  , ""
  , "Deliverable: Provide a prioritized defect list with reproduction steps, environment details, impacted elements, and recommended fixes."
  , "If all elements work properly, output “Result: PASS” in the end. Otherwise, output “Result: FAIL” in the end."
  ]

/-- Default value of the initial_url flag. -/
def DEFAULT_INITIAL_URL : String :=
  "https://temp-dupe-all-index.s3.us-west-1.amazonaws.com/interactive_webpages/v4/55_newtons-laws-of-motion-in-physics.html"

/-- Default value of the model flag. -/
def DEFAULT_MODEL : String := "gemini-2.5-computer-use-preview-10-2025"

/-- Default value of the output_file flag. -/
def DEFAULT_OUTPUT_FILE : String := "result.txt"

/-- Constant screen size from main.py line 21; it is the only viewport value the
program ever passes to a Computer constructor. -/
def PLAYWRIGHT_SCREEN_SIZE : Nat × Nat := (1440, 900)

/-- The choices tuple of the env flag in the argparse declaration. -/
def envChoices : List String := ["playwright", "browserbase"]

/-- Command line as supplied by the user: none means the flag is absent and the
argparse default applies; highlight_mouse is a store_true flag, so its raw form
is just presence or absence. -/
structure RawArgs where
  query : Option String
  env : Option String
  initial_url : Option String
  highlight_mouse : Bool
  model : Option String
  output_file : Option String
deriving DecidableEq, Repr

/-- Parsed argument set as produced by parser.parse_args(). -/
structure Args where
  query : String
  env : String
  initial_url : String
  highlight_mouse : Bool
  model : String
  output_file : String
deriving DecidableEq, Repr

/-- Failure mode of parse_args: argparse exits with an error when a value given
for a flag with a choices constraint is not among the choices. -/
inductive ArgparseReject
  | invalidChoice (flag : String) (value : String)
deriving DecidableEq, Repr

/-- parser.parse_args() of main.py lines 25-82: apply the declared defaults and
enforce the choices constraint on the env flag. -/
def parse_args (raw : RawArgs) : Except ArgparseReject Args :=
  if raw.env.getD "playwright" ∈ envChoices then
    .ok { query := raw.query.getD DEFAULT_QUERY
        , env := raw.env.getD "playwright"
        , initial_url := raw.initial_url.getD DEFAULT_INITIAL_URL
        , highlight_mouse := raw.highlight_mouse
        , model := raw.model.getD DEFAULT_MODEL
        , output_file := raw.output_file.getD DEFAULT_OUTPUT_FILE }
  else
    .error (.invalidChoice "--env" (raw.env.getD "playwright"))

/-- The two Computer implementations main can construct, recorded with exactly
the constructor arguments main.py passes at lines 85-94.  The classes
themselves live in the computers module, outside the source tree; for the
claims only the identity of the selected class and the arguments handed to it
matter. -/
inductive Computer
  | PlaywrightComputer (screen_size : Nat × Nat) (initial_url : String)
      (highlight_mouse : Bool)
  | BrowserbaseComputer (screen_size : Nat × Nat) (initial_url : String)
deriving DecidableEq, Repr

/-- The screen size handed to the constructed Computer. -/
def Computer.screenSize : Computer → Nat × Nat
  | .PlaywrightComputer s _ _ => s
  | .BrowserbaseComputer s _ => s

/-- Python exceptions that can escape main: the ValueError of the unknown
environment branch, a failure to enter the with-block (modelled from the spec:
open may fail with a LaunchError), an exception raised inside agent_loop, and
an OS error raised by makedirs or open while writing the output file. -/
inductive PyExn
  | ValueError (msg : String)
  | LaunchError
  | AgentExn
  | OSWriteError
deriving DecidableEq, Repr

/-- The if/elif/else chain of main.py lines 84-96 selecting the backend from
the env string. -/
def constructComputer (env initial_url : String) (highlight_mouse : Bool) :
    Except PyExn Computer :=
  if env = "playwright" then
    .ok (.PlaywrightComputer PLAYWRIGHT_SCREEN_SIZE initial_url highlight_mouse)
  else if env = "browserbase" then
    .ok (.BrowserbaseComputer PLAYWRIGHT_SCREEN_SIZE initial_url)
  else
    .error (.ValueError "Unknown environment: ")

/-- Computer construction for a parsed argument set. -/
def mkComputer (args : Args) : Except PyExn Computer :=
  constructComputer args.env args.initial_url args.highlight_mouse

/-- Modelled from the spec: the agent loop state machine of the BrowserAgent
class (module agent, absent from the source tree) ends either in TERMINATED,
carrying the payload of the terminal Finish action, or in FAILED. -/
inductive LoopOutcome
  | TERMINATED (reasoning : String)
  | FAILED
deriving DecidableEq, Repr

/-- Modelled from the spec: final_reasoning is None until a Finish action is
produced; TERMINATED sets it to the Finish payload, and FAILED has no
final_reasoning. -/
def LoopOutcome.final_reasoning : LoopOutcome → Option String
  | .TERMINATED r => some r
  | .FAILED => none

/-- First match in a path-content association list. -/
def lookupFile (p : String) : List (String × String) → Option String
  | [] => none
  | (q, c) :: rest => if p = q then some c else lookupFile p rest

/-- On-disk state visible to main: files as a path-content association list in
which the most recent write comes first, and the list of directories that have
been created. -/
structure FS where
  files : List (String × String)
  dirs : List String
deriving DecidableEq, Repr

/-- Content of the file at a path, if one exists. -/
def FS.read (fs : FS) (p : String) : Option String := lookupFile p fs.files

/-- Truthiness of a Python string: the empty string is falsy. -/
def truthyStr (s : String) : Bool := s != ""

/-- Characters of a path up to and including its last slash; empty when the
path holds no slash. -/
def takeThroughLastSlash (cs : List Char) : List Char :=
  (cs.reverse.dropWhile (fun c => c ≠ '/')).reverse

/-- Drop the trailing slash characters of a path. -/
def dropTrailingSlashes (cs : List Char) : List Char :=
  (cs.reverse.dropWhile (fun c => c = '/')).reverse

/-- os.path.dirname for POSIX paths: everything up to the final slash, with
trailing slashes stripped unless that head consists only of slashes. -/
def dirname (p : String) : String :=
  let head := takeThroughLastSlash p.toList
  if head.any (fun c => c ≠ '/') then String.mk (dropTrailingSlashes head)
  else String.mk head

/-- os.path.expanduser for the bare leading tilde forms, with home the value of
the HOME environment variable (assumed free of a trailing slash); a tilde-user
form would consult the password database and is environment-dependent, so it is
left unexpanded here, as Python itself does when the lookup fails. -/
def expanduser (home p : String) : String :=
  match p.toList with
  | ['~'] => home
  | '~' :: '/' :: rest => home ++ String.mk ('/' :: rest)
  | _ => p

/-- Lines 107-112 of main.py: expand the user path, create the missing parent
directories of it when its dirname is truthy (os.makedirs with exist_ok), and
open the file in write mode, truncating any previous content. -/
def writeOutput (home : String) (fs : FS) (output_file reasoning : String) : FS :=
  let output_path := expanduser home output_file
  let output_dir := dirname output_path
  { files := (output_path, reasoning) :: fs.files
  , dirs := if truthyStr output_dir then output_dir :: fs.dirs else fs.dirs }

/-- Everything outside main.py that a single run depends on.  The with-block
entry and the agent loop are modelled from the spec, their modules being absent
from the source tree: acquisition may fail, agent_loop ends in an outcome or
raises, and the operating system may refuse the output write.  A refused write
is modelled as raising before any mutation. -/
structure World where
  home : String
  fs : FS
  acquire_ok : Bool
  loop_result : Except PyExn LoopOutcome
  write_ok : Bool

/-- Observable result of one run of main: the resulting file system, whether
the Computer acquired by the with-block was released, and either the value main
returned or the exception that escaped it. -/
structure RunResult where
  fs : FS
  released : Bool
  exit : Except PyExn Nat

/-- Body of the with-block, main.py lines 99-112: run the agent loop, then
write the output file only when both the configured path and final_reasoning
are truthy (None and the empty string are falsy). -/
def withBody (w : World) (args : Args) : Except PyExn FS :=
  match w.loop_result with
  | .error e => .error e
  | .ok outcome =>
      match outcome.final_reasoning with
      | some r =>
          if truthyStr args.output_file && truthyStr r then
            if w.write_ok then .ok (writeOutput w.home w.fs args.output_file r)
            else .error .OSWriteError
          else .ok w.fs
      | none => .ok w.fs

/-- mainRun models main() of main.py over an already parsed argument set and an explicit
world: construct the Computer, enter the with-block, run the body, and return
0; the with-statement releases the Computer on every exit from its scope once
entry succeeded, whether the body returned or raised.  An escaping exception is
recorded in the exit field. -/
def mainRun (w : World) (args : Args) : RunResult :=
  match mkComputer args with
  | .error e => { fs := w.fs, released := false, exit := .error e }
  | .ok _browser_computer =>
      if w.acquire_ok then
        match withBody w args with
        | .ok fs1 => { fs := fs1, released := true, exit := .ok 0 }
        | .error e => { fs := w.fs, released := true, exit := .error e }
      else
        { fs := w.fs, released := false, exit := .error .LaunchError }

/-- Exit status of the interpreter for one run: the __main__ guard of main.py
discards the return value of main, so a completed run exits with status 0,
while an uncaught exception terminates the interpreter with status 1. -/
def processExitCode (r : RunResult) : Nat :=
  match r.exit with
  | .ok _ => 0
  | .error _ => 1

/-- The env value is one that argparse accepts. -/
def validEnv (args : Args) : Prop :=
  args.env = "playwright" ∨ args.env = "browserbase"

instance (args : Args) : Decidable (validEnv args) := by
  unfold validEnv; infer_instance

/-- Concrete parsed argument set: the playwright defaults. -/
def argsA : Args :=
  { query := DEFAULT_QUERY, env := "playwright", initial_url := DEFAULT_INITIAL_URL
  , highlight_mouse := false, model := DEFAULT_MODEL, output_file := "result.txt" }

/-- Concrete parsed argument set selecting the remote backend with every flag given. -/
def argsB : Args :=
  { query := DEFAULT_QUERY, env := "browserbase", initial_url := "https://example.com"
  , highlight_mouse := true, model := "gemini-test", output_file := "out/res.txt" }

/-- Concrete raw command line that parses to argsB. -/
def rawB : RawArgs :=
  { query := none, env := some "browserbase", initial_url := some "https://example.com"
  , highlight_mouse := true, model := some "gemini-test", output_file := some "out/res.txt" }

/-- Concrete argument set with an empty output path. -/
def argsNoOutput : Args := { argsA with output_file := "" }

/-- Concrete argument set whose output path carries a leading tilde. -/
def argsTilde : Args := { argsA with output_file := "~/out/res.txt" }

/-- Concrete starting file system holding a stale output file and a bystander file. -/
def fsA : FS := { files := [("result.txt", "stale"), ("other.txt", "keep")], dirs := ["/tmp"] }

/-- Concrete starting file system for the tilde run, with a pre-existing file at
the expanded output path. -/
def fsPre : FS :=
  { files := [("/root/out/res.txt", "old"), ("other.txt", "keep")], dirs := ["/var"] }

/-- Concrete world: a run that terminates normally with a nonempty reasoning. -/
def worldTerm : World :=
  { home := "/root", fs := fsA, acquire_ok := true
  , loop_result := .ok (.TERMINATED "Result: PASS"), write_ok := true }

/-- Concrete world: the loop terminates with final_reasoning set to the empty string. -/
def worldEmptyReasoning : World :=
  { home := "/root", fs := fsA, acquire_ok := true
  , loop_result := .ok (.TERMINATED ""), write_ok := true }

/-- Concrete world: the loop terminates normally but the output write is refused. -/
def worldWriteFail : World :=
  { home := "/root", fs := fsA, acquire_ok := true
  , loop_result := .ok (.TERMINATED "Result: PASS"), write_ok := false }

/-- Concrete world: the loop ends in FAILED. -/
def worldFailed : World :=
  { home := "/root", fs := fsA, acquire_ok := true
  , loop_result := .ok .FAILED, write_ok := true }

/-- Concrete world for the tilde run. -/
def worldTilde : World :=
  { home := "/root", fs := fsPre, acquire_ok := true
  , loop_result := .ok (.TERMINATED "Result: PASS"), write_ok := true }

theorem mkComputer_playwright (args : Args) (h : args.env = "playwright") :
    mkComputer args =
      .ok (.PlaywrightComputer PLAYWRIGHT_SCREEN_SIZE args.initial_url
        args.highlight_mouse) := by
  unfold mkComputer constructComputer
  rw [h]
  rfl

theorem mkComputer_browserbase (args : Args) (h : args.env = "browserbase") :
    mkComputer args = .ok (.BrowserbaseComputer PLAYWRIGHT_SCREEN_SIZE args.initial_url) := by
  unfold mkComputer constructComputer
  rw [h]
  rfl

theorem exists_mkComputer_ok (args : Args) (henv : validEnv args) :
    ∃ c, mkComputer args = .ok c := by
  rcases henv with h | h
  · exact ⟨_, mkComputer_playwright args h⟩
  · exact ⟨_, mkComputer_browserbase args h⟩

theorem env_mem_cases (s : String) (h : s ∈ envChoices) :
    s = "playwright" ∨ s = "browserbase" := by
  simpa [envChoices] using h

theorem mainRun_eq_of_acquired (w : World) (args : Args) (henv : validEnv args)
    (hacq : w.acquire_ok = true) :
    mainRun w args =
      match withBody w args with
      | .ok fs1 => { fs := fs1, released := true, exit := .ok 0 }
      | .error e => { fs := w.fs, released := true, exit := .error e } := by
  obtain ⟨c, hc⟩ := exists_mkComputer_ok args henv
  unfold mainRun
  rw [hc, hacq]
  rfl

theorem mainRun_not_acquired (w : World) (args : Args) (henv : validEnv args)
    (hacq : w.acquire_ok = false) :
    mainRun w args = { fs := w.fs, released := false, exit := .error .LaunchError } := by
  obtain ⟨c, hc⟩ := exists_mkComputer_ok args henv
  unfold mainRun
  rw [hc, hacq]
  rfl

theorem withBody_raise (w : World) (args : Args) (e : PyExn)
    (hl : w.loop_result = .error e) : withBody w args = .error e := by
  unfold withBody
  rw [hl]

theorem withBody_no_reasoning (w : World) (args : Args) (o : LoopOutcome)
    (hl : w.loop_result = .ok o) (hfr : o.final_reasoning = none) :
    withBody w args = .ok w.fs := by
  unfold withBody
  rw [hl]
  simp only [hfr]

theorem withBody_empty_cond (w : World) (args : Args) (r : String)
    (hl : w.loop_result = .ok (.TERMINATED r))
    (hcond : (truthyStr args.output_file && truthyStr r) = false) :
    withBody w args = .ok w.fs := by
  unfold withBody
  rw [hl]
  simp only [LoopOutcome.final_reasoning, hcond, Bool.false_eq_true, if_false]

theorem withBody_write (w : World) (args : Args) (r : String)
    (hl : w.loop_result = .ok (.TERMINATED r))
    (hcond : (truthyStr args.output_file && truthyStr r) = true)
    (hw : w.write_ok = true) :
    withBody w args = .ok (writeOutput w.home w.fs args.output_file r) := by
  unfold withBody
  rw [hl]
  simp only [LoopOutcome.final_reasoning, hcond, hw, if_true]

theorem withBody_write_fail (w : World) (args : Args) (r : String)
    (hl : w.loop_result = .ok (.TERMINATED r))
    (hcond : (truthyStr args.output_file && truthyStr r) = true)
    (hw : w.write_ok = false) :
    withBody w args = .error .OSWriteError := by
  unfold withBody
  rw [hl]
  simp only [LoopOutcome.final_reasoning, hcond, hw, if_true, Bool.false_eq_true, if_false]

theorem writeOutput_read_self (home : String) (fs : FS) (p r : String) :
    (writeOutput home fs p r).read (expanduser home p) = some r := by
  simp [writeOutput, FS.read, lookupFile]

theorem writeOutput_read_other (home : String) (fs : FS) (p r q : String)
    (hq : q ≠ expanduser home p) :
    (writeOutput home fs p r).read q = fs.read q := by
  simp [writeOutput, FS.read, lookupFile, hq]

theorem writeOutput_dirs_mem_self (home : String) (fs : FS) (p r : String)
    (h : dirname (expanduser home p) ≠ "") :
    dirname (expanduser home p) ∈ (writeOutput home fs p r).dirs := by
  have hc : truthyStr (dirname (expanduser home p)) = true := by simp [truthyStr, h]
  simp [writeOutput, hc]

theorem writeOutput_dirs_mono (home : String) (fs : FS) (p r d : String)
    (h : d ∈ fs.dirs) : d ∈ (writeOutput home fs p r).dirs := by
  cases hc : truthyStr (dirname (expanduser home p)) <;> simp [writeOutput, hc, h]

theorem writeOutput_dirs_subset (home : String) (fs : FS) (p r d : String)
    (h : d ∈ (writeOutput home fs p r).dirs) :
    d ∈ fs.dirs ∨ d = dirname (expanduser home p) := by
  cases hc : truthyStr (dirname (expanduser home p)) <;>
    simp [writeOutput, hc] at h
  · exact .inl h
  · rcases h with h | h
    · exact .inr h
    · exact .inl h

theorem parse_args_ok_fields (raw : RawArgs) (args : Args)
    (h : parse_args raw = .ok args) :
    args = { query := raw.query.getD DEFAULT_QUERY
           , env := raw.env.getD "playwright"
           , initial_url := raw.initial_url.getD DEFAULT_INITIAL_URL
           , highlight_mouse := raw.highlight_mouse
           , model := raw.model.getD DEFAULT_MODEL
           , output_file := raw.output_file.getD DEFAULT_OUTPUT_FILE } ∧
    args.env ∈ envChoices := by
  unfold parse_args at h
  split at h
  case isTrue hc =>
    injection h with h1
    subst h1
    exact ⟨rfl, hc⟩
  case isFalse hc =>
    exact Except.noConfusion h

theorem mainRun_exit_cases (w : World) (args : Args) :
    (mainRun w args).exit = .ok 0 ∨ ∃ e, (mainRun w args).exit = .error e := by
  unfold mainRun
  split
  · exact .inr ⟨_, rfl⟩
  · split
    · split
      · exact .inl rfl
      · exact .inr ⟨_, rfl⟩
    · exact .inr ⟨_, rfl⟩

/-- Claim C1, counterexample: a run whose loop reaches TERMINATED with
final_reasoning set to the empty string, with the output path result.txt
configured; contrary to the claim, main does not write the file — the file
system is unchanged and the content at the expanded output path stays the stale
pre-existing content rather than the final_reasoning string. -/
theorem terminated_set_reasoning_not_written :
    worldEmptyReasoning.loop_result = .ok (.TERMINATED "") ∧
    (LoopOutcome.TERMINATED "").final_reasoning = some "" ∧
    argsA.output_file = "result.txt" ∧
    (mainRun worldEmptyReasoning argsA).fs = worldEmptyReasoning.fs ∧
    (mainRun worldEmptyReasoning argsA).fs.read
        (expanduser worldEmptyReasoning.home argsA.output_file) = some "stale" :=
  ⟨rfl, rfl, rfl, rfl, rfl⟩

/-- Claim C1 (amended): in a run with the Computer acquired and the write not
refused by the operating system, if the loop terminates with a nonempty
final_reasoning and a nonempty output path is configured, main writes the
expanded output path with content exactly final_reasoning; and whenever the
loop ends with final_reasoning unset or empty, the file system is untouched. -/
theorem final_reasoning_written_iff_truthy (w : World) (args : Args)
    (henv : validEnv args) (hacq : w.acquire_ok = true) :
    (∀ r, w.loop_result = .ok (.TERMINATED r) → r ≠ "" → args.output_file ≠ "" →
       w.write_ok = true →
       (mainRun w args).fs.read (expanduser w.home args.output_file) = some r) ∧
    (∀ o, w.loop_result = .ok o →
       (o.final_reasoning = none ∨ o.final_reasoning = some "") →
       (mainRun w args).fs = w.fs) := by
  constructor
  · intro r hl hr ho hw
    have hcond : (truthyStr args.output_file && truthyStr r) = true := by
      simp [truthyStr, ho, hr]
    rw [mainRun_eq_of_acquired w args henv hacq, withBody_write w args r hl hcond hw]
    exact writeOutput_read_self w.home w.fs args.output_file r
  · intro o hl hfr
    rcases hfr with hfr | hfr
    · rw [mainRun_eq_of_acquired w args henv hacq,
          withBody_no_reasoning w args o hl hfr]
    · cases o with
      | FAILED => exact Option.noConfusion hfr
      | TERMINATED r =>
          have hr : r = "" := by
            simpa [LoopOutcome.final_reasoning] using hfr
          subst hr
          rw [mainRun_eq_of_acquired w args henv hacq,
              withBody_empty_cond w args "" hl (by simp [truthyStr])]

/-- Claim C1 witness: the amended theorem applied to a concrete terminating run. -/
theorem final_reasoning_written_iff_truthy_witness :
    (mainRun worldTerm argsA).fs.read (expanduser worldTerm.home argsA.output_file) =
      some "Result: PASS" :=
  (final_reasoning_written_iff_truthy worldTerm argsA (Or.inl rfl) rfl).1
    "Result: PASS" rfl (by decide) (by decide) rfl

/-- Claim C2: the Computer acquired by the with-block is released exactly when
that scope exits, on every exit path — normal completion, an exception raised
inside agent_loop, or an exception raised while writing the output file; a run
that never enters the scope releases nothing. -/
theorem computer_released_unconditionally (w : World) (args : Args)
    (henv : validEnv args) :
    (mainRun w args).released = true ↔ w.acquire_ok = true := by
  cases hacq : w.acquire_ok
  · rw [mainRun_not_acquired w args henv hacq]
  · rw [mainRun_eq_of_acquired w args henv hacq]
    cases hwb : withBody w args <;> simp

/-- Claim C2 witness at a concrete terminating run. -/
theorem computer_released_unconditionally_witness :
    (mainRun worldTerm argsA).released = true :=
  (computer_released_unconditionally worldTerm argsA (Or.inl rfl)).mpr rfl

/-- Claim C3, counterexample: acquisition succeeds and the loop terminates
normally, but the operating system refuses the output write; the exception
escapes main and the interpreter exits with status 1, so a non-zero process
exit does not arise only from a failure to acquire the Computer. -/
theorem nonzero_exit_without_acquisition_failure :
    worldWriteFail.acquire_ok = true ∧
    (mainRun worldWriteFail argsA).exit = .error .OSWriteError ∧
    processExitCode (mainRun worldWriteFail argsA) = 1 :=
  ⟨rfl, rfl, rfl⟩

/-- Claim C3 (amended): whenever main returns normally it returns 0, including
when the loop outcome is FAILED; the process exit status is 0 exactly when no
exception escapes main, so a non-zero status arises from any escaping exception
— acquisition failure, an agent_loop exception, or an output-write failure —
and from nothing else. -/
theorem main_returns_zero (w : World) (args : Args) :
    (∀ n, (mainRun w args).exit = .ok n → n = 0) ∧
    (validEnv args → w.acquire_ok = true → w.loop_result = .ok .FAILED →
       (mainRun w args).exit = .ok 0) ∧
    (processExitCode (mainRun w args) = 0 ↔ ∃ n, (mainRun w args).exit = .ok n) := by
  refine ⟨?_, ?_, ?_⟩
  · intro n hn
    rcases mainRun_exit_cases w args with h | ⟨e, he⟩
    · exact (Except.ok.inj (h.symm.trans hn)).symm
    · exact Except.noConfusion (he.symm.trans hn)
  · intro henv hacq hl
    rw [mainRun_eq_of_acquired w args henv hacq,
        withBody_no_reasoning w args .FAILED hl rfl]
  · rcases mainRun_exit_cases w args with h | ⟨e, he⟩
    · constructor
      · intro _
        exact ⟨0, h⟩
      · intro _
        unfold processExitCode
        rw [h]
    · constructor
      · intro hp
        unfold processExitCode at hp
        rw [he] at hp
        exact absurd hp (by simp)
      · rintro ⟨n, hn⟩
        exact Except.noConfusion (he.symm.trans hn)

/-- Claim C3 witness: a FAILED run still makes main return 0. -/
theorem main_returns_zero_witness :
    (mainRun worldFailed argsA).exit = .ok 0 :=
  (main_returns_zero worldFailed argsA).2.1 (Or.inl rfl) rfl rfl

/-- Claim C4: a run whose loop ends in FAILED has no final_reasoning (modelled
from the spec), so main writes no output file — the file system is exactly the
one the run started with — and main still returns 0. -/
theorem failed_writes_nothing (w : World) (args : Args) (henv : validEnv args)
    (hacq : w.acquire_ok = true) (hl : w.loop_result = .ok .FAILED) :
    LoopOutcome.FAILED.final_reasoning = none ∧
    (mainRun w args).fs = w.fs ∧ (mainRun w args).exit = .ok 0 := by
  refine ⟨rfl, ?_, ?_⟩ <;>
    rw [mainRun_eq_of_acquired w args henv hacq,
        withBody_no_reasoning w args .FAILED hl rfl]

/-- Claim C4 witness at a concrete FAILED run. -/
theorem failed_writes_nothing_witness :
    LoopOutcome.FAILED.final_reasoning = none ∧
    (mainRun worldFailed argsA).fs = worldFailed.fs ∧
    (mainRun worldFailed argsA).exit = .ok 0 :=
  failed_writes_nothing worldFailed argsA (Or.inl rfl) rfl rfl

/-- Claim C5, counterexample: no command-line argument value changes the
viewport — every Computer main can construct carries exactly
PLAYWRIGHT_SCREEN_SIZE, because main.py declares no viewport flag and passes
the constant at both construction sites, refuting the existence of an argument
value for which the viewport dimensions differ from their default. -/
theorem no_argument_changes_viewport :
    ¬ ∃ (args : Args) (c : Computer),
        mkComputer args = .ok c ∧ c.screenSize ≠ PLAYWRIGHT_SCREEN_SIZE := by
  rintro ⟨args, c, hc, hne⟩
  apply hne
  unfold mkComputer constructComputer at hc
  split at hc
  · injection hc with h1
    subst h1
    rfl
  · split at hc
    · injection hc with h1
      subst h1
      rfl
    · exact Except.noConfusion hc

/-- Claim C5 (amended): the CLI provides flags selecting the query, the backend,
the initial URL, cursor highlighting, the model identifier, and the output
file, each forwarded by parse_args with its declared default when absent; the
viewport is not selectable — the constructed Computer always receives the
constant PLAYWRIGHT_SCREEN_SIZE. -/
theorem cli_flags_fixed_viewport (raw : RawArgs) (args : Args)
    (h : parse_args raw = .ok args) :
    args.query = raw.query.getD DEFAULT_QUERY ∧
    args.env = raw.env.getD "playwright" ∧
    args.initial_url = raw.initial_url.getD DEFAULT_INITIAL_URL ∧
    args.highlight_mouse = raw.highlight_mouse ∧
    args.model = raw.model.getD DEFAULT_MODEL ∧
    args.output_file = raw.output_file.getD DEFAULT_OUTPUT_FILE ∧
    ∃ c, mkComputer args = .ok c ∧ c.screenSize = PLAYWRIGHT_SCREEN_SIZE := by
  obtain ⟨ha, hmem⟩ := parse_args_ok_fields raw args h
  subst ha
  refine ⟨rfl, rfl, rfl, rfl, rfl, rfl, ?_⟩
  rcases env_mem_cases _ hmem with h1 | h1
  · exact ⟨_, mkComputer_playwright _ h1, rfl⟩
  · exact ⟨_, mkComputer_browserbase _ h1, rfl⟩

/-- Claim C5 witness: the amended theorem applied to a concrete command line
that sets every flag. -/
theorem cli_flags_fixed_viewport_witness :
    argsB.query = rawB.query.getD DEFAULT_QUERY ∧
    argsB.env = rawB.env.getD "playwright" ∧
    argsB.initial_url = rawB.initial_url.getD DEFAULT_INITIAL_URL ∧
    argsB.highlight_mouse = rawB.highlight_mouse ∧
    argsB.model = rawB.model.getD DEFAULT_MODEL ∧
    argsB.output_file = rawB.output_file.getD DEFAULT_OUTPUT_FILE ∧
    ∃ c, mkComputer argsB = .ok c ∧ c.screenSize = PLAYWRIGHT_SCREEN_SIZE :=
  cli_flags_fixed_viewport rawB argsB rfl

/-- Claim C6: for every parsed argument set exactly one Computer is constructed,
selected once by the env value — playwright yields the local PlaywrightComputer
and browserbase the remote BrowserbaseComputer — and no later code path
branches on the backend: two runs over argument sets differing only in a valid
env value are identical in every observable. -/
theorem backend_selected_once (args : Args) (henv : validEnv args) :
    (args.env = "playwright" →
       mkComputer args = .ok (.PlaywrightComputer PLAYWRIGHT_SCREEN_SIZE
         args.initial_url args.highlight_mouse)) ∧
    (args.env = "browserbase" →
       mkComputer args = .ok (.BrowserbaseComputer PLAYWRIGHT_SCREEN_SIZE
         args.initial_url)) ∧
    (∀ (w : World) (e2 : String), validEnv { args with env := e2 } →
       mainRun w { args with env := e2 } = mainRun w args) := by
  refine ⟨mkComputer_playwright args, mkComputer_browserbase args, ?_⟩
  intro w e2 henv2
  obtain ⟨c1, hc1⟩ := exists_mkComputer_ok _ henv2
  obtain ⟨c2, hc2⟩ := exists_mkComputer_ok args henv
  unfold mainRun
  rw [hc1, hc2]
  rfl

/-- Claim C6 witness: the selected class at the playwright defaults, and the
backend-agnosticism of a concrete run. -/
theorem backend_selected_once_witness :
    mkComputer argsA = .ok (.PlaywrightComputer PLAYWRIGHT_SCREEN_SIZE
      argsA.initial_url argsA.highlight_mouse) ∧
    mainRun worldTerm { argsA with env := "browserbase" } = mainRun worldTerm argsA :=
  ⟨(backend_selected_once argsA (Or.inl rfl)).1 rfl,
   (backend_selected_once argsA (Or.inl rfl)).2.2 worldTerm "browserbase" (Or.inr rfl)⟩

/-- Claim C7: highlight_mouse has no effect on the browserbase backend — for a
browserbase argument set the constructed Computer is identical whatever the
value of the flag, since main.py forwards highlight_mouse only to the
PlaywrightComputer constructor. -/
theorem highlight_mouse_noop_browserbase (args : Args)
    (h : args.env = "browserbase") (b1 b2 : Bool) :
    mkComputer { args with highlight_mouse := b1 } =
      mkComputer { args with highlight_mouse := b2 } ∧
    mkComputer { args with highlight_mouse := b1 } =
      .ok (.BrowserbaseComputer PLAYWRIGHT_SCREEN_SIZE args.initial_url) := by
  have h1 := mkComputer_browserbase { args with highlight_mouse := b1 } h
  have h2 := mkComputer_browserbase { args with highlight_mouse := b2 } h
  exact ⟨h1.trans h2.symm, h1⟩

/-- Claim C7 witness at a concrete browserbase argument set. -/
theorem highlight_mouse_noop_browserbase_witness :
    mkComputer { argsB with highlight_mouse := true } =
      mkComputer { argsB with highlight_mouse := false } :=
  (highlight_mouse_noop_browserbase argsB rfl true false).1

/-- Claim C8: the unknown-environment ValueError branch is unreachable — every
argument set parse_args accepts has an env value among the declared choices, so
Computer construction always succeeds and is never the ValueError. -/
theorem unknown_environment_unreachable (raw : RawArgs) (args : Args)
    (h : parse_args raw = .ok args) :
    args.env ∈ envChoices ∧
    ∃ c, mkComputer args = .ok c ∧
      ∀ msg, mkComputer args ≠ .error (.ValueError msg) := by
  obtain ⟨ha, hmem⟩ := parse_args_ok_fields raw args h
  obtain ⟨c, hc⟩ := exists_mkComputer_ok args (by
    subst ha
    exact env_mem_cases _ hmem)
  exact ⟨hmem, c, hc, fun msg hcontra => Except.noConfusion (hc.symm.trans hcontra)⟩

/-- Claim C8 witness at a concrete accepted command line. -/
theorem unknown_environment_unreachable_witness :
    argsB.env ∈ envChoices ∧
    ∃ c, mkComputer argsB = .ok c ∧
      ∀ msg, mkComputer argsB ≠ .error (.ValueError msg) :=
  unknown_environment_unreachable rawB argsB rfl

/-- Claim C9: output writing is gated on truthiness, not mere presence — when
the configured output path is the empty string, or the loop terminated with
final_reasoning equal to the empty string, the file system is untouched even
though the loop reached TERMINATED, and main still returns 0; the write flag of
the world is irrelevant because the write branch is never entered. -/
theorem output_gated_on_truthiness (w : World) (args : Args) (henv : validEnv args)
    (hacq : w.acquire_ok = true) (r : String)
    (hl : w.loop_result = .ok (.TERMINATED r))
    (hor : args.output_file = "" ∨ r = "") :
    (mainRun w args).fs = w.fs ∧ (mainRun w args).exit = .ok 0 := by
  have hcond : (truthyStr args.output_file && truthyStr r) = false := by
    rcases hor with h | h <;> simp [truthyStr, h]
  refine ⟨?_, ?_⟩ <;>
    rw [mainRun_eq_of_acquired w args henv hacq, withBody_empty_cond w args r hl hcond]

/-- Claim C9 witness: a TERMINATED run with the output path configured empty. -/
theorem output_gated_on_truthiness_witness :
    (mainRun worldTerm argsNoOutput).fs = worldTerm.fs ∧
    (mainRun worldTerm argsNoOutput).exit = .ok 0 :=
  output_gated_on_truthiness worldTerm argsNoOutput (Or.inl rfl) rfl
    "Result: PASS" rfl (Or.inl rfl)

/-- Claim C10: when the output file is written, main expands a leading tilde in
the configured path, records the parent directory of the expanded path as
created when that dirname is nonempty, and replaces whatever file was at the
expanded path with exactly final_reasoning; every other file and every
pre-existing directory is untouched, and the only directory possibly added is
that parent. -/
theorem write_effects_and_frame (w : World) (args : Args) (henv : validEnv args)
    (hacq : w.acquire_ok = true) (hw : w.write_ok = true) (r : String)
    (hl : w.loop_result = .ok (.TERMINATED r)) (hr : r ≠ "")
    (ho : args.output_file ≠ "") :
    (mainRun w args).fs.read (expanduser w.home args.output_file) = some r ∧
    (∀ q, q ≠ expanduser w.home args.output_file →
       (mainRun w args).fs.read q = w.fs.read q) ∧
    (dirname (expanduser w.home args.output_file) ≠ "" →
       dirname (expanduser w.home args.output_file) ∈ (mainRun w args).fs.dirs) ∧
    (∀ d, d ∈ w.fs.dirs → d ∈ (mainRun w args).fs.dirs) ∧
    (∀ d, d ∈ (mainRun w args).fs.dirs →
       d ∈ w.fs.dirs ∨ d = dirname (expanduser w.home args.output_file)) := by
  have hcond : (truthyStr args.output_file && truthyStr r) = true := by
    simp [truthyStr, ho, hr]
  rw [mainRun_eq_of_acquired w args henv hacq, withBody_write w args r hl hcond hw]
  exact ⟨writeOutput_read_self w.home w.fs args.output_file r,
    fun q hq => writeOutput_read_other w.home w.fs args.output_file r q hq,
    fun hd => writeOutput_dirs_mem_self w.home w.fs args.output_file r hd,
    fun d hd => writeOutput_dirs_mono w.home w.fs args.output_file r d hd,
    fun d hd => writeOutput_dirs_subset w.home w.fs args.output_file r d hd⟩

/-- Claim C10 witness: a concrete run whose output path has a leading tilde and
a pre-existing file at the expanded path; the tilde is expanded against home,
the old content is replaced, the bystander file survives, and the parent
directory is recorded as created. -/
theorem write_effects_and_frame_witness :
    expanduser worldTilde.home argsTilde.output_file = "/root/out/res.txt" ∧
    (mainRun worldTilde argsTilde).fs.read "/root/out/res.txt" = some "Result: PASS" ∧
    (mainRun worldTilde argsTilde).fs.read "other.txt" = some "keep" ∧
    "/root/out" ∈ (mainRun worldTilde argsTilde).fs.dirs := by
  obtain ⟨h1, h2, h3, h4, h5⟩ :=
    write_effects_and_frame worldTilde argsTilde (Or.inl rfl) rfl rfl "Result: PASS"
      rfl (by decide) (by decide)
  refine ⟨by decide, ?_, ?_, ?_⟩
  · exact (by decide : expanduser worldTilde.home argsTilde.output_file =
      "/root/out/res.txt") ▸ h1
  · exact (h2 "other.txt" (by decide)).trans (by decide)
  · exact (by decide : dirname (expanduser worldTilde.home argsTilde.output_file) =
      "/root/out") ▸ h3 (by decide)
